import Mathlib

/-!
Shallow embedding of the control-session engine of `pyremoteplay`
(`src/pyremoteplay/ctrl.py`, `src/pyremoteplay/util.py`), together with
theorems settling the specification claims about it.

Bytes are modelled as natural numbers (each byte in `0..255`); byte strings
as `List Nat`.  Python exceptions are modelled with `Except`.  The session
cipher (`RPCipher`, whose source `crypt.py` is not part of the repository
snapshot) is modelled from the spec as a keystream cipher.
-/

namespace Pyremoteplay

/-- Big-endian u32 encoding, as produced by `struct.pack_into` format `I`
(`_build_msg`, ctrl.py line 273). -/
def u32be (n : Nat) : List Nat :=
  [n / 2 ^ 24 % 256, n / 2 ^ 16 % 256, n / 2 ^ 8 % 256, n % 256]

/-- Big-endian u16 encoding, as produced by `struct.pack_into` format `H`. -/
def u16be (n : Nat) : List Nat :=
  [n / 2 ^ 8 % 256, n % 256]

/-- Modelled from the spec: `RPCipher` — the file `crypt.py` is not in `src/`.
Per spec section 4.2 it is a keystream cipher: `encrypt`/`decrypt` XOR the
buffer against the keystream starting at the current counter position and
advance the counter by the buffer length.  The keystream itself is abstracted
as a function `ks` from byte position to byte value; applying the cipher at
position `pos` XORs byte `i` of the buffer with `ks (pos + i)`. -/
def cryptApply (ks : Nat → Nat) (pos : Nat) (data : List Nat) : List Nat :=
  data.mapIdx (fun i b => (b ^^^ ks (pos + i)) % 256)

/-- Modelled from the spec: `RP_CRYPT_SIZE` is defined in `const.py`, which is
not in `src/`; spec sections 3 and 4.1 fix nonce/key material at 16 bytes. -/
def RP_CRYPT_SIZE : Nat := 16

/-- `_get_rp_nonce` (ctrl.py lines 80-90).  `CTRL_KEY_0` (from `keys.py`,
not in `src/`) is abstracted as the byte-lookup function `tableA`; the
source's slice `CTRL_KEY_0[((nonce[0] >> 3) * 112):]` followed by `key[index]`
is the lookup `tableA ((nonce[0] >>> 3) * 112 + index)`.  The loop writes
`bytearray(RP_CRYPT_SIZE)` cell by cell, modelled as a fold over
`List.range` updating a `List.replicate` accumulator. -/
def getRpNonce (tableA : Nat → Nat) (nonce : List Nat) : List Nat :=
  (List.range RP_CRYPT_SIZE).foldl
    (fun acc index =>
      acc.set index
        (((nonce.getD index 0 + 54 + index) ^^^
            tableA ((nonce.getD 0 0 >>> 3) * 112 + index)) % 256))
    (List.replicate RP_CRYPT_SIZE 0)

/-- `_get_aes_key` (ctrl.py lines 93-103), with `CTRL_KEY_1` abstracted as
`tableB` in the same way as `CTRL_KEY_0` in `getRpNonce`. -/
def getAesKey (tableB : Nat → Nat) (nonce rpKey : List Nat) : List Nat :=
  (List.range RP_CRYPT_SIZE).foldl
    (fun acc index =>
      acc.set index
        ((((tableB ((nonce.getD 7 0 >>> 3) * 112 + index) ^^^
              rpKey.getD index 0) + 33 + index) ^^^ nonce.getD index 0) % 256))
    (List.replicate RP_CRYPT_SIZE 0)

/-- The values of `CTRL.MessageType` (ctrl.py lines 119-133). -/
def messageTypeValues : List Nat :=
  [0x04, 0x8004, 0x05, 0x33, 0xfe, 0x1fe, 0x50,
   0x20, 0x21, 0x22, 0x23, 0x24, 0x25]

/-- `CTRL.MessageType(v)` succeeds exactly when `v` is an enum value;
otherwise it raises `ValueError` (caught in `_handle`). -/
def knownMessageType (v : Nat) : Bool :=
  messageTypeValues.contains v

/-- The values of `CTRL.Error` (ctrl.py lines 135-142). -/
def errorValues : List Nat :=
  [0x80108b09, 0x80108b02, 0x80108b10, 0x80108b15, 0x80108b11, 0x80108bff]

/-- `CTRL.Error(v)` succeeds exactly when `v` is an enum value; otherwise it
raises `ValueError` (uncaught in `_parse_init`). -/
def knownError (v : Nat) : Bool :=
  errorValues.contains v

/-- The `HEARTBEAT_RESPONSE` payload literal (ctrl.py line 34). -/
def hbResponsePayload : List Nat := [0, 0, 0, 0, 0x01, 0xfe, 0, 0]

/-- Python exceptions that the embedded code can raise. -/
inductive PyErr where
  | indexError
  | valueError
  | typeError
deriving Repr, DecidableEq

/-- The fields of a `CTRL` object that message dispatch touches
(ctrl.py `__init__`): the shared cipher's keystream position, the stored
session identity `_session_id`, the last-heartbeat timestamp `_hb_last`,
and whether a `cb_start` callback was registered. -/
structure CtrlState where
  cipherPos : Nat
  sessionId : List Nat
  hbLast : Nat
  hasCbStart : Bool
deriving Repr, DecidableEq

/-- Fresh per-connection state (ctrl.py `__init__`): `_session_id = b''`,
`_hb_last = 0`.  The cipher position at the start of the control phase is a
parameter (the cipher is created with `counter=0` in `_get_ctrl_headers` and
already advanced by the four encrypted auth-header fields). -/
def initCtrlState (cipherPos : Nat) (hasCbStart : Bool) : CtrlState :=
  { cipherPos := cipherPos, sessionId := [], hbLast := 0, hasCbStart := hasCbStart }

/-- Observable effects of dispatch: log warnings, direct socket writes
(`self._sock.send`), queue insertions (`self._send_buf.put` — no call site
exists in the source), the `cb_start` callback, the `start_stream` call, and
the disconnect call (present only as a comment in the source, line 256). -/
inductive CtrlEvent where
  | warnInvalidType (b : Nat)
  | warnMalformedSessionId
  | sockSend (frame : List Nat)
  | queuePut (frame : List Nat)
  | cbStart
  | startStream
  | disconnect
deriving Repr, DecidableEq

/-- `CTRL._build_msg` (ctrl.py lines 268-274).  Returns the frame and the
cipher position after the call.  Note the source computes
`self._cipher.encrypt(payload)` but discards its result: the cipher advances
by `len(payload)`, while `pack_into(f"!IHxx{payload_size}s", ...)` packs the
original `payload` bytes after the 8-byte header. -/
def buildMsg (ks : Nat → Nat) (pos : Nat) (msgType : Nat) (payload : List Nat) :
    List Nat × Nat :=
  let payloadSize := payload.length
  let _ciphertext := cryptApply ks pos payload
  (u32be payloadSize ++ u16be msgType ++ [0, 0] ++ payload, pos + payloadSize)

/-- The frame the spec's words describe (spec sections 4.4 and the frame
diagram): header with `payload_length = len(ciphertext)`, message type as u16
big-endian, two reserved zero bytes, then the cipher-encrypted payload.
Stated from the spec for comparison with `buildMsg`. -/
def specBuildMsg (ks : Nat → Nat) (pos : Nat) (msgType : Nat) (payload : List Nat) :
    List Nat × Nat :=
  let ciphertext := cryptApply ks pos payload
  (u32be ciphertext.length ++ u16be msgType ++ [0, 0] ++ ciphertext,
   pos + payload.length)

/-- The frame `_send_hb_request` sends: `_build_msg(HEARTBEAT_REQUEST)` with
the default empty payload — independent of the cipher state. -/
def hbReqFrame : List Nat := [0, 0, 0, 0, 0, 0xfe, 0, 0]

/-- `0x80 <= b <= 0xBF`: a UTF-8 continuation byte. -/
def isCont (b : Nat) : Bool :=
  decide (0x80 ≤ b ∧ b ≤ 0xBF)

/-- Strict UTF-8 validity (RFC 3629), the check performed by Python's
`bytes.decode()` in `_handle` (ctrl.py line 253): rejects overlong forms,
surrogates and code points above U+10FFFF. -/
def validUtf8 : List Nat → Bool
  | [] => true
  | b :: rest =>
    if b ≤ 0x7F then validUtf8 rest
    else if 0xC2 ≤ b ∧ b ≤ 0xDF then
      match rest with
      | c1 :: r => isCont c1 && validUtf8 r
      | [] => false
    else if b = 0xE0 then
      match rest with
      | c1 :: c2 :: r =>
        decide (0xA0 ≤ c1 ∧ c1 ≤ 0xBF) && isCont c2 && validUtf8 r
      | _ => false
    else if (0xE1 ≤ b ∧ b ≤ 0xEC) ∨ b = 0xEE ∨ b = 0xEF then
      match rest with
      | c1 :: c2 :: r => isCont c1 && isCont c2 && validUtf8 r
      | _ => false
    else if b = 0xED then
      match rest with
      | c1 :: c2 :: r =>
        decide (0x80 ≤ c1 ∧ c1 ≤ 0x9F) && isCont c2 && validUtf8 r
      | _ => false
    else if b = 0xF0 then
      match rest with
      | c1 :: c2 :: c3 :: r =>
        decide (0x90 ≤ c1 ∧ c1 ≤ 0xBF) && isCont c2 && isCont c3 && validUtf8 r
      | _ => false
    else if 0xF1 ≤ b ∧ b ≤ 0xF3 then
      match rest with
      | c1 :: c2 :: c3 :: r => isCont c1 && isCont c2 && isCont c3 && validUtf8 r
      | _ => false
    else if b = 0xF4 then
      match rest with
      | c1 :: c2 :: c3 :: r =>
        decide (0x80 ≤ c1 ∧ c1 ≤ 0x8F) && isCont c2 && isCont c3 && validUtf8 r
      | _ => false
    else false

/-- The trailing staleness check of `_handle` (ctrl.py lines 264-266):
`if time.time() - self._hb_last > 5`, send a heartbeat request built by
`_build_msg(HEARTBEAT_REQUEST)` (empty payload, so the cipher position is
unchanged) directly via `self._sock.send`.  Time is modelled in whole
seconds. -/
def finishHb (ks : Nat → Nat) (now : Nat) (s : CtrlState) (ev : List CtrlEvent) :
    Except PyErr (CtrlState × List CtrlEvent) :=
  if 5 < now - s.hbLast then
    Except.ok ({ s with cipherPos := (buildMsg ks s.cipherPos 0xfe []).2 },
      ev ++ [CtrlEvent.sockSend (buildMsg ks s.cipherPos 0xfe []).1])
  else
    Except.ok (s, ev)

/-- `CTRL._handle` (ctrl.py lines 232-266).  The source first slices
`payload = data[8:]` and decrypts it when non-empty (for empty slices the
cipher is not touched, and `cryptApply` on `[]` advances by `0`, so the two
coincide); it then reads `data[5]` — raising `IndexError` when the buffer is
shorter than 6 bytes — and looks the byte up in `CTRL.MessageType`, catching
the `ValueError` of an unknown value.  `HEARTBEAT_REQUEST` (0xfe) records the
time and sends the fixed response frame directly on the socket;
`HEARTBEAT_RESPONSE` (0x1fe, unreachable from a single byte but kept as in
the source) records the time; `SESSION_ID` (0x33) validates
`payload[2:]` as text — returning early on failure — and otherwise stores it
and invokes the callback or `start_stream`.  Finally the heartbeat staleness
check `finishHb` runs, except on the early returns. -/
def handle (ks : Nat → Nat) (now : Nat) (s : CtrlState) (data : List Nat) :
    Except PyErr (CtrlState × List CtrlEvent) :=
  let raw := data.drop 8
  let payload := cryptApply ks s.cipherPos raw
  let pos1 := s.cipherPos + raw.length
  match data.get? 5 with
  | none => Except.error PyErr.indexError
  | some b5 =>
    if knownMessageType b5 then
      if b5 = 0xfe then
        finishHb ks now
          { s with hbLast := now,
                   cipherPos := (buildMsg ks pos1 0x1fe hbResponsePayload).2 }
          [CtrlEvent.sockSend (buildMsg ks pos1 0x1fe hbResponsePayload).1]
      else if b5 = 0x1fe then
        finishHb ks now { s with hbLast := now, cipherPos := pos1 } []
      else if b5 = 0x33 then
        let sid := payload.drop 2
        if validUtf8 sid then
          finishHb ks now { s with sessionId := sid, cipherPos := pos1 }
            [if s.hasCbStart then CtrlEvent.cbStart else CtrlEvent.startStream]
        else
          Except.ok ({ s with cipherPos := pos1 },
            [CtrlEvent.warnMalformedSessionId])
      else
        finishHb ks now { s with cipherPos := pos1 } []
    else
      Except.ok ({ s with cipherPos := pos1 }, [CtrlEvent.warnInvalidType b5])

deriving instance DecidableEq for Except

/-- The init-phase HTTP response as `_parse_init` (ctrl.py lines 187-202)
reads it: the status code, the `RP-Application-Reason` header (already parsed
from hex to its big-endian integer value, `none` when absent) and the
`RP-Nonce` header (already base64-decoded to bytes, `none` when absent). -/
structure InitResponse where
  status : Nat
  appReason : Option Nat
  nonceHdr : Option (List Nat)
deriving Repr, DecidableEq

/-- `CTRL._parse_init` (ctrl.py lines 187-202).  On a non-200 status the
source evaluates `bytes.fromhex(reason)` — a `TypeError` when the header is
absent — and `CTRL.Error(reason).name` — a `ValueError` when the code is not
an enum value — purely to log; it then falls through unconditionally to
return the `RP-Nonce` header (or `None`). -/
def parseInit (r : InitResponse) : Except PyErr (Option (List Nat)) :=
  if r.status ≠ 200 then
    match r.appReason with
    | none => Except.error PyErr.typeError
    | some code =>
      if knownError code then Except.ok r.nonceHdr
      else Except.error PyErr.valueError
  else
    Except.ok r.nonceHdr

/-- `CTRL.connect` (ctrl.py lines 309-316): parse the init response; return
`False` when the nonce is `None`; otherwise derive the key material, build
the auth headers and return the outcome of `_send_auth` (abstracted as the
parameter `authOk`). -/
def connectInit (r : InitResponse) (authOk : Bool) : Except PyErr Bool :=
  match parseInit r with
  | Except.error e => Except.error e
  | Except.ok none => Except.ok false
  | Except.ok (some _nonce) => Except.ok authOk

/-- One action of one iteration of the `listener` loop body
(util.py lines 126-135). -/
inductive LoopAction where
  | selectCheck
  | recvCall
  | handleCall (data : List Nat)
  | setStop
  | sleepCall
  | sendCall
deriving Repr, DecidableEq

/-- One iteration of the `listener` worker loop (util.py lines 126-135):
select on the socket; when readable, `recv` and either call `handle` on
non-empty data or set the stop event; then sleep.  There is no send or
queue-drain step. -/
def listenerIter (avail : Bool) (data : List Nat) : List LoopAction :=
  if avail then
    if data.length > 0 then
      [LoopAction.selectCheck, LoopAction.recvCall,
       LoopAction.handleCall data, LoopAction.sleepCall]
    else
      [LoopAction.selectCheck, LoopAction.recvCall,
       LoopAction.setStop, LoopAction.sleepCall]
  else
    [LoopAction.selectCheck, LoopAction.sleepCall]

/-- The number of parameters of `listener` (util.py line 122):
`name`, `sock`, `handle`, `stop_event`. -/
def listenerParamCount : Nat := 4

/-- The number of positional arguments `CTRL.start` passes to the worker
thread target (ctrl.py lines 303-306): `"CTRL"`, `self._sock`,
`self._handle`, `self.send`, `self._stop_event`. -/
def startListenerArgCount : Nat := 5

/-! ### Helper lemmas -/

/-- A fold over `List.range n` that writes cell `i` of the accumulator with
`f i` rewrites the first `n` cells and keeps the rest. -/
theorem foldl_range_set (f : Nat → Nat) :
    ∀ (n : Nat) (acc : List Nat), n ≤ acc.length →
      (List.range n).foldl (fun a i => a.set i (f i)) acc =
        (List.range n).map f ++ acc.drop n := by
  intro n
  induction n with
  | zero => intro acc h; simp
  | succ n ih =>
    intro acc h
    rw [List.range_succ, List.foldl_append, List.map_append,
      ih acc (Nat.le_of_succ_le h)]
    simp only [List.foldl_cons, List.foldl_nil, List.map_cons, List.map_nil]
    have hlen : ((List.range n).map f).length = n := by simp
    have hn : n < acc.length := h
    rw [List.drop_eq_getElem_cons hn, List.set_append_right _ _ (by omega)]
    simp only [hlen, Nat.sub_self, List.set_cons_zero, List.append_assoc,
      List.singleton_append]

/-- `getRpNonce` in closed form, via `foldl_range_set`. -/
theorem getRpNonce_eq_map (tableA : Nat → Nat) (nonce : List Nat) :
    getRpNonce tableA nonce =
      (List.range 16).map (fun index =>
        ((nonce.getD index 0 + 54 + index) ^^^
          tableA ((nonce.getD 0 0 >>> 3) * 112 + index)) % 256) := by
  unfold getRpNonce RP_CRYPT_SIZE
  rw [foldl_range_set _ 16 _ (by simp)]
  simp

/-- `getAesKey` in closed form, via `foldl_range_set`. -/
theorem getAesKey_eq_map (tableB : Nat → Nat) (nonce rpKey : List Nat) :
    getAesKey tableB nonce rpKey =
      (List.range 16).map (fun index =>
        (((tableB ((nonce.getD 7 0 >>> 3) * 112 + index) ^^^
            rpKey.getD index 0) + 33 + index) ^^^ nonce.getD index 0) % 256) := by
  unfold getAesKey RP_CRYPT_SIZE
  rw [foldl_range_set _ 16 _ (by simp)]
  simp

/-- `finishHb` in closed form: on a stale heartbeat it sends the fixed
8-byte heartbeat-request frame and leaves the state unchanged (the empty
payload advances the cipher by 0). -/
theorem finishHb_spec (ks : Nat → Nat) (now : Nat) (s : CtrlState)
    (ev : List CtrlEvent) :
    finishHb ks now s ev =
      if 5 < now - s.hbLast then
        Except.ok (s, ev ++ [CtrlEvent.sockSend hbReqFrame])
      else
        Except.ok (s, ev) := by
  unfold finishHb
  split_ifs <;> rfl

/-- `finishHb` never raises. -/
theorem finishHb_ok (ks : Nat → Nat) (now : Nat) (s : CtrlState)
    (ev : List CtrlEvent) :
    ∃ r, finishHb ks now s ev = Except.ok r := by
  rw [finishHb_spec]
  split_ifs <;> exact ⟨_, rfl⟩

/-- The wire bytes of the heartbeat-response frame `_send_hb_response`
produces do not depend on the cipher (the encryption result is discarded). -/
theorem buildMsg_hbResp (ks : Nat → Nat) (pos : Nat) :
    (buildMsg ks pos 0x1fe hbResponsePayload).1 =
      [0, 0, 0, 8, 1, 0xfe, 0, 0, 0, 0, 0, 0, 1, 0xfe, 0, 0] := rfl

/-! ### Claim theorems -/

/-- C1: `_build_msg` does not emit the cipher-encryption of the payload: the
call `self._cipher.encrypt(payload)` discards its result, so the frame
carries the plaintext payload after the 8-byte header, while the cipher does
advance by the payload length.  At message type `0x1fe` and payload `[0]`,
under a keystream whose bytes are all `1`, the code's frame ends in the
plaintext byte `0` whereas the spec's frame (`specBuildMsg`) ends in the
ciphertext byte `1`. -/
theorem build_msg_emits_plaintext :
    (buildMsg (fun _ => 1) 0 0x1fe [0]).1 = [0, 0, 0, 1, 1, 0xfe, 0, 0, 0] ∧
    (specBuildMsg (fun _ => 1) 0 0x1fe [0]).1 = [0, 0, 0, 1, 1, 0xfe, 0, 0, 1] ∧
    (buildMsg (fun _ => 1) 0 0x1fe [0]).1 ≠ (specBuildMsg (fun _ => 1) 0 0x1fe [0]).1 ∧
    (buildMsg (fun _ => 1) 0 0x1fe [0]).2 = 1 := by
  decide

/-- C2: the encode/decode round trip fails.  Encoding the known message type
`HEARTBEAT_RESPONSE = 0x1fe` produces header type bytes `[1, 0xfe]`, but the
decoder (`_handle`) reads only `data[5] = 0xfe`, dispatching the frame as a
`HEARTBEAT_REQUEST` (recording the heartbeat time and sending the fixed
response frame) instead of recovering the full u16 value.  Moreover, because
`_build_msg` emits the plaintext, decoding a nonempty payload with a matching
cipher state yields the payload XORed with the keystream, not the payload:
for type `0x05`, payload `[0]` and all-ones keystream the decoder recovers
`[1]`. -/
theorem encode_decode_diverges :
    knownMessageType 0x1fe = true ∧
    (buildMsg (fun _ => 0) 0 0x1fe []).1 = [0, 0, 0, 0, 1, 0xfe, 0, 0] ∧
    ((buildMsg (fun _ => 0) 0 0x1fe []).1).get? 5 = some 0xfe ∧
    (0xfe : Nat) ≠ 0x1fe ∧
    handle (fun _ => 0) 0 (initCtrlState 0 false) (buildMsg (fun _ => 0) 0 0x1fe []).1 =
      Except.ok ({ cipherPos := 8, sessionId := [], hbLast := 0, hasCbStart := false },
        [CtrlEvent.sockSend
          [0, 0, 0, 8, 1, 0xfe, 0, 0, 0, 0, 0, 0, 1, 0xfe, 0, 0]]) ∧
    cryptApply (fun _ => 1) 0 (((buildMsg (fun _ => 1) 0 0x05 [0]).1).drop 8) = [1] ∧
    ([1] : List Nat) ≠ [0] := by
  decide

/-- C3: outbound frames are not funneled through the send queue.
`util.listener` takes four parameters (`name`, `sock`, `handle`,
`stop_event`) while `CTRL.start` passes five positional arguments (the
worker thread raises `TypeError`); no iteration of the listener loop
contains a send or queue-drain action; and handling a `HEARTBEAT_REQUEST`
frame writes the response frame directly to the socket (`self._sock.send`)
without any queue insertion. -/
theorem listener_arity_and_direct_send :
    listenerParamCount = 4 ∧ startListenerArgCount = 5 ∧
    startListenerArgCount ≠ listenerParamCount ∧
    LoopAction.sendCall ∉ listenerIter true [1] ∧
    LoopAction.sendCall ∉ listenerIter true [] ∧
    LoopAction.sendCall ∉ listenerIter false [] ∧
    handle (fun _ => 0) 0 (initCtrlState 0 false) [0, 0, 0, 0, 0, 0xfe, 0, 0] =
      Except.ok ({ cipherPos := 8, sessionId := [], hbLast := 0, hasCbStart := false },
        [CtrlEvent.sockSend
          [0, 0, 0, 8, 1, 0xfe, 0, 0, 0, 0, 0, 0, 1, 0xfe, 0, 0]]) ∧
    CtrlEvent.queuePut [0, 0, 0, 8, 1, 0xfe, 0, 0, 0, 0, 0, 0, 1, 0xfe, 0, 0] ∉
      [CtrlEvent.sockSend [0, 0, 0, 8, 1, 0xfe, 0, 0, 0, 0, 0, 0, 1, 0xfe, 0, 0]] := by
  decide

/-- C4: for every 16-byte server nonce and pairing key, and every lookup
table, the derivation functions return 16 bytes whose `i`-th entry matches
the spec's byte formula (`derive_session_nonce` with the `TABLE_A` block
selected by `server_nonce[0] >> 3` times 112, `derive_aes_key` with the
`TABLE_B` block selected by `server_nonce[7] >> 3` times 112).  Both are
plain functions of their arguments, hence deterministic. -/
theorem keyDerivation_formula (tableA tableB : Nat → Nat) (nonce rpKey : List Nat)
    (i : Nat) (hi : i < 16) (hn : nonce.length = 16) (hk : rpKey.length = 16) :
    (getRpNonce tableA nonce).length = 16 ∧
    (getAesKey tableB nonce rpKey).length = 16 ∧
    (getRpNonce tableA nonce).getD i 0 =
      ((nonce.getD i 0 + 54 + i) ^^^
        tableA ((nonce.getD 0 0 >>> 3) * 112 + i)) % 256 ∧
    (getAesKey tableB nonce rpKey).getD i 0 =
      (((tableB ((nonce.getD 7 0 >>> 3) * 112 + i) ^^^ rpKey.getD i 0) + 33 + i) ^^^
        nonce.getD i 0) % 256 := by
  rw [getRpNonce_eq_map, getAesKey_eq_map]
  have hl : ((List.range 16).map (fun index =>
      ((nonce.getD index 0 + 54 + index) ^^^
        tableA ((nonce.getD 0 0 >>> 3) * 112 + index)) % 256)).length = 16 := by simp
  have hl' : ((List.range 16).map (fun index =>
      (((tableB ((nonce.getD 7 0 >>> 3) * 112 + index) ^^^
          rpKey.getD index 0) + 33 + index) ^^^ nonce.getD index 0) % 256)).length = 16 := by
    simp
  refine ⟨hl, hl', ?_, ?_⟩ <;>
    rw [List.getD_eq_getElem?_getD, List.getElem?_eq_getElem (by simp [hi])] <;>
    simp

/-- Witness for C4 at the all-zero tables, nonce `0x00..0x0F` and pairing key
`0x10..0x1F`, index 3. -/
theorem keyDerivation_formula_witness :
    (getRpNonce (fun _ => 0) (List.range 16)).length = 16 ∧
    (getAesKey (fun _ => 0) (List.range 16) ((List.range 16).map (fun j => 16 + j))).length = 16 ∧
    (getRpNonce (fun _ => 0) (List.range 16)).getD 3 0 =
      (((List.range 16).getD 3 0 + 54 + 3) ^^^
        (fun _ => (0 : Nat)) (((List.range 16).getD 0 0 >>> 3) * 112 + 3)) % 256 ∧
    (getAesKey (fun _ => 0) (List.range 16) ((List.range 16).map (fun j => 16 + j))).getD 3 0 =
      ((((fun _ => (0 : Nat)) (((List.range 16).getD 7 0 >>> 3) * 112 + 3) ^^^
          ((List.range 16).map (fun j => 16 + j)).getD 3 0) + 33 + 3) ^^^
        (List.range 16).getD 3 0) % 256 :=
  keyDerivation_formula (fun _ => 0) (fun _ => 0) (List.range 16)
    ((List.range 16).map (fun j => 16 + j)) 3 (by decide) (by decide) (by decide)

/-- C5 counterexample: the stored identity is not read-only after being set.
With identity already `b"ABC"`, dispatching a second `SESSION_ID` frame whose
decoded payload is `b"XYZ"` (zero keystream, so decryption is the identity)
overwrites the stored identity. -/
theorem session_id_overwritten :
    handle (fun _ => 0) 0
        { cipherPos := 0, sessionId := [65, 66, 67], hbLast := 0, hasCbStart := true }
        [0, 0, 0, 5, 0, 0x33, 0, 0, 0, 0, 88, 89, 90] =
      Except.ok ({ cipherPos := 5, sessionId := [88, 89, 90], hbLast := 0, hasCbStart := true },
        [CtrlEvent.cbStart]) ∧
    ([88, 89, 90] : List Nat) ≠ [65, 66, 67] := by
  decide

/-- C5 (amended): the identity is empty at session start, and every
successfully decoded `SESSION_ID` frame stores its own decoded payload (after
the 2-byte prefix) as the identity, regardless of the previous value —
last-writer-wins overwrite rather than set-exactly-once. -/
theorem session_id_last_writer_wins (ks : Nat → Nat) (now : Nat) (s : CtrlState)
    (data : List Nat) (p : Nat) (cb : Bool)
    (h5 : data.get? 5 = some 0x33)
    (hok : validUtf8 ((cryptApply ks s.cipherPos (data.drop 8)).drop 2) = true) :
    (initCtrlState p cb).sessionId = [] ∧
    ∃ r, handle ks now s data = Except.ok r ∧
      r.1.sessionId = (cryptApply ks s.cipherPos (data.drop 8)).drop 2 := by
  refine ⟨rfl, ?_⟩
  have hkt : knownMessageType 0x33 = true := rfl
  simp only [handle, h5]
  rw [if_pos hkt, if_neg (by decide), if_neg (by decide), if_pos trivial, if_pos hok,
    finishHb_spec]
  split_ifs <;> exact ⟨_, rfl, rfl⟩

/-- Witness for C5's amended theorem: a `SESSION_ID` frame with decoded
payload tail `b"A"` stores `b"A"`. -/
theorem session_id_last_writer_wins_witness :
    (initCtrlState 0 false).sessionId = [] ∧
    ∃ r,
      handle (fun _ => 0) 0 { cipherPos := 0, sessionId := [], hbLast := 0, hasCbStart := false }
          [0, 0, 0, 3, 0, 0x33, 0, 0, 0, 0, 65] = Except.ok r ∧
      r.1.sessionId =
        (cryptApply (fun _ => 0) 0 ([0, 0, 0, 3, 0, 0x33, 0, 0, 0, 0, 65].drop 8)).drop 2 :=
  session_id_last_writer_wins (fun _ => 0) 0 _ _ 0 false (by decide) (by decide)

/-- C6 counterexample: a frame whose u16 message type `0x2fe` is outside the
known enumeration is not reported and discarded: `_handle` reads only
`data[5] = 0xfe` and dispatches it as `HEARTBEAT_REQUEST`, updating the
heartbeat timestamp and sending a response frame. -/
theorem unknown_u16_type_dispatched :
    knownMessageType 0x2fe = false ∧
    u16be 0x2fe = [2, 0xfe] ∧
    handle (fun _ => 0) 100 (initCtrlState 0 false) [0, 0, 0, 0, 2, 0xfe, 0, 0] =
      Except.ok ({ cipherPos := 8, sessionId := [], hbLast := 100, hasCbStart := false },
        [CtrlEvent.sockSend
          [0, 0, 0, 8, 1, 0xfe, 0, 0, 0, 0, 0, 0, 1, 0xfe, 0, 0]]) ∧
    (100 : Nat) ≠ 0 := by
  decide

/-- C6 (amended): a frame whose type byte `data[5]` is outside the known
enumeration values is reported (`warnInvalidType`) and discarded, the cipher
advances by exactly the length of the bytes after the 8-byte header, and all
other session state is unchanged; but a frame whose full u16 type is unknown
is dispatched by its low byte alone (see the counterexample). -/
theorem unknown_type_byte_discard (ks : Nat → Nat) (now : Nat) (s : CtrlState)
    (data : List Nat) (b5 : Nat) (h5 : data.get? 5 = some b5)
    (hunk : knownMessageType b5 = false) :
    handle ks now s data =
      Except.ok ({ s with cipherPos := s.cipherPos + (data.drop 8).length },
        [CtrlEvent.warnInvalidType b5]) := by
  simp only [handle, h5]
  rw [if_neg (by simp [hunk])]

/-- Witness for C6's amended theorem at type byte `0x99`. -/
theorem unknown_type_byte_discard_witness :
    handle (fun _ => 2) 50 { cipherPos := 7, sessionId := [1], hbLast := 3, hasCbStart := true }
        [0, 0, 0, 2, 0, 0x99, 0, 0, 10, 11] =
      Except.ok ({ cipherPos := 9, sessionId := [1], hbLast := 3, hasCbStart := true },
        [CtrlEvent.warnInvalidType 0x99]) :=
  unknown_type_byte_discard (fun _ => 2) 50 _ _ 0x99 (by decide) (by decide)

/-- C7 counterexample: the staleness check does not run for every handled
message, and the corrective frame is not enqueued.  With the last heartbeat
more than 5 seconds old, an unknown-type frame produces no
`HEARTBEAT_REQUEST` at all (the early return skips the check), and a known
frame causes the corrective frame to be written directly to the socket, with
no queue insertion. -/
theorem hb_check_skipped_on_early_return :
    handle (fun _ => 0) 10 (initCtrlState 0 false) [0, 0, 0, 0, 0, 0x99, 0, 0] =
      Except.ok ({ cipherPos := 0, sessionId := [], hbLast := 0, hasCbStart := false },
        [CtrlEvent.warnInvalidType 0x99]) ∧
    5 < 10 - (0 : Nat) ∧
    CtrlEvent.sockSend hbReqFrame ∉ [CtrlEvent.warnInvalidType 0x99] ∧
    handle (fun _ => 0) 10 (initCtrlState 0 false) [0, 0, 0, 0, 0, 0x05, 0, 0] =
      Except.ok ({ cipherPos := 0, sessionId := [], hbLast := 0, hasCbStart := false },
        [CtrlEvent.sockSend hbReqFrame]) ∧
    CtrlEvent.queuePut hbReqFrame ∉ [CtrlEvent.sockSend hbReqFrame] := by
  decide

/-- C7 (amended): for every message that completes dispatch (its type byte is
a known enumeration value and, for `SESSION_ID`, its payload decodes as
text), the handler ends with the staleness check: exactly one corrective
`HEARTBEAT_REQUEST` frame is written (directly to the socket) when more than
5 seconds have elapsed since the last recorded heartbeat activity, and none
otherwise; the check is skipped on the early returns (unknown type byte,
malformed session id). -/
theorem hb_staleness_on_complete_dispatch (ks : Nat → Nat) (now : Nat) (s : CtrlState)
    (data : List Nat) (b5 : Nat) (h5 : data.get? 5 = some b5)
    (hknown : knownMessageType b5 = true)
    (hsid : b5 = 0x33 → validUtf8 ((cryptApply ks s.cipherPos (data.drop 8)).drop 2) = true) :
    ∃ r, handle ks now s data = Except.ok r ∧
      r.2.count (CtrlEvent.sockSend hbReqFrame) =
        (if 5 < now - r.1.hbLast then 1 else 0) := by
  simp only [handle, h5]
  rw [if_pos hknown]
  by_cases hfe : b5 = 0xfe
  · rw [if_pos hfe, finishHb_spec, buildMsg_hbResp]
    dsimp only
    rw [Nat.sub_self]
    rw [if_neg (by decide)]
    refine ⟨_, rfl, ?_⟩
    dsimp only
    rw [Nat.sub_self]
    decide
  · rw [if_neg hfe]
    by_cases h1fe : b5 = 0x1fe
    · rw [if_pos h1fe, finishHb_spec]
      dsimp only
      rw [Nat.sub_self]
      rw [if_neg (by decide)]
      refine ⟨_, rfl, ?_⟩
      dsimp only
      rw [Nat.sub_self]
      decide
    · rw [if_neg h1fe]
      by_cases h33 : b5 = 0x33
      · rw [if_pos h33, if_pos (hsid h33), finishHb_spec]
        dsimp only
        split_ifs with hst hcb hcb <;>
          refine ⟨_, rfl, ?_⟩ <;> dsimp only <;>
          (first | rw [if_pos hst] | rw [if_neg hst]) <;> decide
      · rw [if_neg h33, finishHb_spec]
        dsimp only
        split_ifs with hst
        · refine ⟨_, rfl, ?_⟩
          dsimp only
          rw [if_pos hst]
          decide
        · refine ⟨_, rfl, ?_⟩
          dsimp only
          rw [if_neg hst]
          decide

/-- Witness for C7's amended theorem: a `LOGIN` frame with a stale heartbeat
produces exactly one corrective heartbeat-request send. -/
theorem hb_staleness_on_complete_dispatch_witness :
    ∃ r,
      handle (fun _ => 0) 10 (initCtrlState 0 false) [0, 0, 0, 0, 0, 0x05, 0, 0] =
        Except.ok r ∧
      r.2.count (CtrlEvent.sockSend hbReqFrame) =
        (if 5 < 10 - r.1.hbLast then 1 else 0) :=
  hb_staleness_on_complete_dispatch (fun _ => 0) 10 (initCtrlState 0 false)
    [0, 0, 0, 0, 0, 0x05, 0, 0] 0x05 (by decide) (by decide) (by decide)

/-- C8 counterexample: a non-200 init response does not abort the handshake
with `InitRejected`, and an unlisted reason code is not classified as
unknown.  With status 404, a listed reason code and a nonce header present,
`connect` proceeds to the auth phase and can succeed; with an unlisted
reason code, `CTRL.Error(reason)` raises an uncaught `ValueError` instead of
reporting the `UNKNOWN` classification. -/
theorem init_rejection_not_enforced :
    connectInit { status := 404, appReason := some 0x80108b09, nonceHdr := some [1] } true =
      Except.ok true ∧
    connectInit { status := 404, appReason := some 0xdead, nonceHdr := some [1] } true =
      Except.error PyErr.valueError ∧
    knownError 0xdead = false ∧
    knownError 0x80108bff = true := by
  decide

/-- C8 (amended): on a non-200 init response `_parse_init` parses and logs
the `RP-Application-Reason` code only when it is a listed `CTRL.Error` value
(an absent header raises `TypeError` and an unlisted code `ValueError`,
both uncaught), and the handshake then proceeds whenever the `RP-Nonce`
header is present, failing (`connect` returns `False`) exactly when it is
absent; a 200 response without the nonce header likewise makes `connect`
return `False`, with no dedicated `MissingNonce` or `InitRejected` error. -/
theorem init_response_handling (r : InitResponse) (authOk : Bool) :
    (r.status ≠ 200 → r.appReason = none →
      connectInit r authOk = Except.error PyErr.typeError) ∧
    (∀ c, r.status ≠ 200 → r.appReason = some c → knownError c = false →
      connectInit r authOk = Except.error PyErr.valueError) ∧
    (∀ c, r.status ≠ 200 → r.appReason = some c → knownError c = true →
      connectInit r authOk = Except.ok (r.nonceHdr.isSome && authOk)) ∧
    (r.status = 200 →
      connectInit r authOk = Except.ok (r.nonceHdr.isSome && authOk)) := by
  obtain ⟨st, ar, nh⟩ := r
  refine ⟨?_, ?_, ?_, ?_⟩
  · intro hst har
    subst har
    simp [connectInit, parseInit, hst]
  · intro c hst har hc
    subst har
    simp [connectInit, parseInit, hst, hc]
  · intro c hst har hc
    subst har
    cases nh <;> simp [connectInit, parseInit, hst, hc]
  · intro hst
    subst hst
    cases nh <;> simp [connectInit, parseInit]

/-- Witness for C8's amended theorem over the four response shapes. -/
theorem init_response_handling_witness :
    connectInit { status := 404, appReason := none, nonceHdr := some [1] } true =
      Except.error PyErr.typeError ∧
    connectInit { status := 404, appReason := some 0xdead, nonceHdr := some [1] } true =
      Except.error PyErr.valueError ∧
    connectInit { status := 404, appReason := some 0x80108b09, nonceHdr := none } true =
      Except.ok false ∧
    connectInit { status := 200, appReason := none, nonceHdr := none } true =
      Except.ok false :=
  ⟨(init_response_handling _ true).1 (by decide) rfl,
   (init_response_handling _ true).2.1 0xdead (by decide) rfl (by decide),
   (init_response_handling _ true).2.2.1 0x80108b09 (by decide) rfl (by decide),
   (init_response_handling _ true).2.2.2 rfl⟩

/-- C9: dispatching a `SESSION_ID` frame whose decoded payload after the
2-byte prefix is not valid text is non-fatal: the handler returns normally
(the `UnicodeDecodeError` is caught), the frame is dropped with only a log
warning, the cipher still advances by the payload length, the stored
identity is unchanged, and no disconnect and no send happens. -/
theorem malformed_session_id_nonfatal (ks : Nat → Nat) (now : Nat) (s : CtrlState)
    (data : List Nat) (h5 : data.get? 5 = some 0x33)
    (hbad : validUtf8 ((cryptApply ks s.cipherPos (data.drop 8)).drop 2) = false) :
    handle ks now s data =
      Except.ok ({ s with cipherPos := s.cipherPos + (data.drop 8).length },
        [CtrlEvent.warnMalformedSessionId]) ∧
    ({ s with cipherPos := s.cipherPos + (data.drop 8).length } : CtrlState).sessionId
      = s.sessionId ∧
    CtrlEvent.disconnect ∉ [CtrlEvent.warnMalformedSessionId] ∧
    CtrlEvent.sockSend hbReqFrame ∉ [CtrlEvent.warnMalformedSessionId] := by
  refine ⟨?_, rfl, by decide, by decide⟩
  have hkt : knownMessageType 0x33 = true := rfl
  simp only [handle, h5]
  rw [if_pos hkt, if_neg (by decide), if_neg (by decide), if_pos trivial,
    if_neg (by simp [hbad])]

/-- Witness for C9 at the spec's test vector `[0x00, 0x00, 0xFF, 0xFE]`
(invalid as UTF-8), zero keystream, empty prior identity. -/
theorem malformed_session_id_nonfatal_witness :
    handle (fun _ => 0) 10 { cipherPos := 0, sessionId := [], hbLast := 0, hasCbStart := false }
        [0, 0, 0, 4, 0, 0x33, 0, 0, 0, 0, 0xFF, 0xFE] =
      Except.ok ({ cipherPos := 4, sessionId := [], hbLast := 0, hasCbStart := false },
        [CtrlEvent.warnMalformedSessionId]) ∧
    ({ cipherPos := 4, sessionId := [], hbLast := 0, hasCbStart := false } : CtrlState).sessionId
      = ({ cipherPos := 0, sessionId := [], hbLast := 0, hasCbStart := false } : CtrlState).sessionId ∧
    CtrlEvent.disconnect ∉ [CtrlEvent.warnMalformedSessionId] ∧
    CtrlEvent.sockSend hbReqFrame ∉ [CtrlEvent.warnMalformedSessionId] :=
  malformed_session_id_nonfatal (fun _ => 0) 10 _ _ (by decide) (by decide)

/-- C10: `_handle` performs no frame validation.  A buffer shorter than 6
bytes raises an uncaught `IndexError`; any buffer of at least 6 bytes is
handled without an exception; and the result depends on the buffer only
through `data[5]` (the type byte) and `data[8:]` (decrypted wholesale as the
payload) — in particular the declared `payload_length` field in bytes 0-3 is
ignored. -/
theorem handle_no_frame_validation (ks : Nat → Nat) (now : Nat) (s : CtrlState)
    (data data' : List Nat) :
    (data.length < 6 → handle ks now s data = Except.error PyErr.indexError) ∧
    (6 ≤ data.length → ∃ r, handle ks now s data = Except.ok r) ∧
    (data.get? 5 = data'.get? 5 → data.drop 8 = data'.drop 8 →
      handle ks now s data = handle ks now s data') := by
  refine ⟨?_, ?_, ?_⟩
  · intro h
    have h5 : data.get? 5 = none := List.get?_eq_none.mpr (by omega)
    simp only [handle, h5]
  · intro h
    cases hx : data.get? 5 with
    | none =>
      exfalso
      rw [List.get?_eq_none] at hx
      omega
    | some b5 =>
      simp only [handle, hx]
      split_ifs <;> first
        | exact finishHb_ok _ _ _ _
        | exact ⟨_, rfl⟩
  · intro h5 h8
    simp only [handle, h5, h8]

/-- Witness for C10: a 3-byte buffer raises, a 6-byte buffer is handled, and
two buffers differing only in the header's length field (and bytes past
index 8 being absent) dispatch identically. -/
theorem handle_no_frame_validation_witness :
    handle (fun _ => 0) 0 (initCtrlState 0 false) [0, 0, 0] =
      Except.error PyErr.indexError ∧
    (∃ r, handle (fun _ => 0) 0 (initCtrlState 0 false) [0, 0, 0, 0, 0, 0x05] =
      Except.ok r) ∧
    handle (fun _ => 0) 0 (initCtrlState 0 false) [0, 0, 0, 0, 0, 0x05] =
      handle (fun _ => 0) 0 (initCtrlState 0 false) [9, 9, 9, 9, 0, 0x05, 7, 7] :=
  ⟨(handle_no_frame_validation (fun _ => 0) 0 (initCtrlState 0 false) [0, 0, 0] [0, 0, 0]).1
      (by decide),
   (handle_no_frame_validation (fun _ => 0) 0 (initCtrlState 0 false)
      [0, 0, 0, 0, 0, 0x05] [0, 0, 0, 0, 0, 0x05]).2.1 (by decide),
   (handle_no_frame_validation (fun _ => 0) 0 (initCtrlState 0 false)
      [0, 0, 0, 0, 0, 0x05] [9, 9, 9, 9, 0, 0x05, 7, 7]).2.2 (by decide) (by decide)⟩

end Pyremoteplay
